import Mathlib

/-
  Verification development for the ResearchBot repository: a Next.js app with
  a chat endpoint (scrape URLs with puppeteer/cheerio, answer with a hosted
  LLM), a share endpoint (conversation storage in Redis with a 7-day TTL),
  and an IP-based rate-limiting middleware on the chat endpoint.

  The external collaborators (browser runtime, HTML parser, LLM API, Redis,
  rate-limit service, JSON codec) are modelled as oracles/environment
  records; the repository code itself (control flow, validation, cleaning,
  retry loop, response construction) is embedded directly.
-/

namespace ResearchBot

/-! ## JavaScript values (for untyped request bodies) -/

/-- A JSON/JavaScript value, as produced by `req.json()`. Numbers are
modelled as integers (no claim involves fractional numerics). -/
inductive JsVal where
  | null : JsVal
  | bool : Bool → JsVal
  | num : Int → JsVal
  | str : String → JsVal
  | arr : List JsVal → JsVal
  | obj : List (String × JsVal) → JsVal

/-- JavaScript truthiness of a value (`!v` is the negation of this). -/
def jsTruthy : JsVal → Bool
  | JsVal.null => false
  | JsVal.bool b => b
  | JsVal.num n => n != 0
  | JsVal.str s => s != ""
  | JsVal.arr _ => true
  | JsVal.obj _ => true

/-- Truthiness of a possibly-undefined value (`none` models `undefined`). -/
def jsTruthyOpt : Option JsVal → Bool
  | none => false
  | some v => jsTruthy v

/-- Array.isArray on a possibly-undefined value. -/
def jsIsArrayOpt : Option JsVal → Bool
  | some (JsVal.arr _) => true
  | _ => false

/-- The elements of an array value (used only after Array.isArray passed). -/
def jsArrElems : Option JsVal → List JsVal
  | some (JsVal.arr xs) => xs
  | _ => []

mutual

/-- JavaScript string coercion, as performed by template literals
(`${query}`): Array.prototype.toString joins the coerced elements with
commas, where null elements coerce to the empty string. -/
def jsToString : JsVal → String
  | JsVal.null => "null"
  | JsVal.bool b => if b then "true" else "false"
  | JsVal.num n => toString n
  | JsVal.str s => s
  | JsVal.arr xs => jsArrJoin xs
  | JsVal.obj _ => "[object Object]"

/-- Comma-join of array elements under JS string coercion. -/
def jsArrJoin : List JsVal → String
  | [] => ""
  | v :: vs =>
    let head := match v with
      | JsVal.null => ""
      | w => jsToString w
    match vs with
    | [] => head
    | _ => head ++ "," ++ jsArrJoin vs

end

/-- String coercion of a possibly-undefined value. -/
def jsToStringOpt : Option JsVal → String
  | none => "undefined"
  | some v => jsToString v

/-! ## JavaScript string helpers -/

/-- Models `String.prototype.startsWith` (a plain prefix test). -/
def jsStartsWith (s p : String) : Bool :=
  p.data.isPrefixOf s.data

/-- Characters matched by the regex class `\s` (the common members:
ASCII whitespace, no-break space, BOM). -/
def isJsWs (c : Char) : Bool :=
  c = ' ' || c = '\t' || c = '\n' || c = '\r' || c = '\x0b' || c = '\x0c' ||
    c = '\u00A0' || c = '\uFEFF'

/-- Models `replace(/p+/g, r)` for a character class `p`: every maximal run
of characters satisfying `p` is replaced by the single character `r`. The
Boolean argument records whether the previous character was in a run. -/
def collapseRuns (p : Char → Bool) (r : Char) : List Char → Bool → List Char
  | [], _ => []
  | c :: cs, inRun =>
    if p c then
      if inRun then collapseRuns p r cs true
      else r :: collapseRuns p r cs true
    else c :: collapseRuns p r cs false

/-- Models `String.prototype.trim` on a character list. -/
def jsTrimList (l : List Char) : List Char :=
  ((l.dropWhile isJsWs).reverse.dropWhile isJsWs).reverse

/-- Models `String.prototype.trim`. -/
def jsTrimStr (s : String) : String :=
  String.mk (jsTrimList s.data)

/-! ## HTML Extractor (chat route, lines 113-150) -/

/-- Oracle view of a parsed HTML document after the removal of
script/style/noscript/iframe/nav/header/footer/ad-like/menu-like elements
(line 116): per-selector query results,
the body text, and the title text. cheerio itself is an external
collaborator; only the selection control flow and the cleaning pipeline
belong to the repository. `selText sel = some t` means the selector matched
at least one element whose combined text is `t`; `none` means no match. -/
structure HtmlDoc where
  selText : String → Option String
  bodyText : String
  titleText : String

/-- The ordered candidate selectors for main content (lines 119-129). -/
def contentSelectors : List String :=
  ["article", "main", "[role=\x22main\x22]", ".content", "#content",
   ".article-body", ".post-content", ".entry-content", ".main-content"]

/-- Lines 131-143: take the text of the first selector that matches at
least one element (even if that text is empty), then fall back to the body
text whenever the accumulated `mainContent` is empty. -/
def extractMainText (doc : HtmlDoc) : String :=
  let mainContent := (contentSelectors.findSome? doc.selText).getD ""
  if mainContent = "" then doc.bodyText else mainContent

/-- Lines 146-150: `.replace(/\s+/g, ' ').replace(/\n+/g, ' ').trim()
.slice(0, 8000)`. -/
def cleanContent (s : String) : String :=
  String.mk
    ((jsTrimList
      (collapseRuns (fun c => c = '\n') ' '
        (collapseRuns isJsWs ' ' s.data false) false)).take 8000)

/-! ## Page Fetcher (chat route, lines 91-109) -/

/-- Outcome of one `page.goto` attempt: the navigation either throws, or
returns a response (`none` models a null response, `some ok` a response
with `response.ok()` equal to `ok`). -/
inductive GotoResult where
  | thrown : GotoResult
  | success : Option Bool → GotoResult

/-- Environment of the scraping phase of one chat request: per-URL,
per-attempt navigation outcomes, the raw markup that `page.content()`
yields for a URL, and the external HTML parser. -/
structure ScrapeEnv where
  goto : String → Nat → GotoResult
  pageMarkup : String → String
  parse : String → HtmlDoc

/-- Trace of the retry loop for one URL: the final outcome (`none` when the
loop re-threw after exhausting retries), how many navigation attempts were
made, and the sleeps (in milliseconds) performed between attempts. -/
structure FetchTrace where
  result : Option (Option Bool)
  attempts : Nat
  sleepsMs : List Nat
deriving DecidableEq

/-- The retry loop body (lines 92-105): `r` is the current `retries`
counter, `attempt` the 1-based index of the attempt about to be made. A
successful `goto` breaks out of the loop; a throw decrements `retries`,
re-throws when it reaches zero, and otherwise sleeps 2000 ms and retries. -/
def gotoLoop (env : ScrapeEnv) (url : String) : Nat → Nat → FetchTrace
  | 0, attempt => { result := none, attempts := attempt - 1, sleepsMs := [] }
  | r + 1, attempt =>
    match env.goto url attempt with
    | GotoResult.success resp =>
      { result := some resp, attempts := attempt, sleepsMs := [] }
    | GotoResult.thrown =>
      if r = 0 then { result := none, attempts := attempt, sleepsMs := [] }
      else
        let t := gotoLoop env url r (attempt + 1)
        { result := t.result, attempts := t.attempts,
          sleepsMs := 2000 :: t.sleepsMs }

/-- Lines 91-105: `let retries = 3; while (retries > 0 && !response) ...`. -/
def fetchWithRetries (env : ScrapeEnv) (url : String) : FetchTrace :=
  gotoLoop env url 3 1

/-! ## Source Collector (chat route, lines 52-172) -/

/-- A scraped source (`WebSource` in the chat route, `Source` in the shared
types; the shapes coincide). -/
structure Source where
  url : String
  content : String
  title : Option String
deriving DecidableEq

/-- Lines 75-163, the per-URL body of the scraping loop after the scheme
check: fetch with retries; a re-thrown navigation error, a null response or
a non-ok status all throw and are caught by the per-URL `catch`
(line 159), yielding no source; otherwise extract and clean the page text
and push a source exactly when the cleaned content is non-empty, with the
trimmed document title (or the URL when that is empty) as title. -/
def processUrl (env : ScrapeEnv) (url : String) : Option Source :=
  match (fetchWithRetries env url).result with
  | none => none
  | some none => none
  | some (some ok) =>
    if !ok then none
    else if cleanContent (extractMainText (env.parse (env.pageMarkup url))) = ""
      then none
    else
      some { url := url
             content := cleanContent (extractMainText (env.parse (env.pageMarkup url)))
             title := some
               (if jsTrimStr ((env.parse (env.pageMarkup url)).titleText) = ""
                then url
                else jsTrimStr ((env.parse (env.pageMarkup url)).titleText)) }

/-- Lines 52-172, `scrapeWebsites`: iterate over the url array in order,
skipping entries that do not start with http:// or https://. A non-string
entry makes `url.startsWith` throw a TypeError, which is caught by the
browser-level `catch` (line 165), aborting the loop and returning the
sources accumulated so far. -/
def scrapeWebsites (env : ScrapeEnv) : List JsVal → List Source
  | [] => []
  | JsVal.str url :: rest =>
    if !(jsStartsWith url "http://" || jsStartsWith url "https://") then
      scrapeWebsites env rest
    else
      match processUrl env url with
      | some s => s :: scrapeWebsites env rest
      | none => scrapeWebsites env rest
  | _ :: _ => []

/-- `scrapeWebsites` on a list that is known to hold strings. -/
def scrapeWebsitesS (env : ScrapeEnv) (urls : List String) : List Source :=
  scrapeWebsites env (urls.map JsVal.str)

/-! ## Answer Generator (chat route, lines 175-216) -/

/-- Outcome of the hosted-model completion call: the request either throws,
or returns `completion.choices[0]?.message?.content` (with `none` covering
a missing choice/message or a null content). -/
inductive ModelOutcome where
  | thrown : ModelOutcome
  | ok : Option String → ModelOutcome

/-- The hosted LLM as an oracle over the (role, content) message list. -/
structure ModelEnv where
  complete : List (String × String) → ModelOutcome

/-- The fixed system instruction (lines 192-195, a template literal whose
indentation is part of the string). -/
def systemPrompt : String :=
  "You are an AI assistant that provides accurate, \n" ++
  "                        contextual answers based strictly on the given sources. \n" ++
  "                        Always cite your sources and be transparent about \n" ++
  "                        the information's origin."

/-- The canned zero-source answer (line 178). -/
def fallbackAnswer : String :=
  "I couldn't extract any content from the provided URLs. Please check the URLs and try again."

/-- Lines 175-216, `generateAnswer`. Returns the handler-visible outcome
(`Except.error` models the re-thrown generic failure of line 214) paired
with a flag recording whether the model was invoked at all. An empty or
missing completion content falls back to a fixed message (line 209). -/
def generateAnswer (env : ModelEnv) (query : String) (sources : List Source) :
    Except String (String × List Source) × Bool :=
  if sources.length = 0 then
    (Except.ok (fallbackAnswer, []), false)
  else
    let combinedContext := String.intercalate "\n\n"
      (sources.map (fun s => "[Source: " ++ s.url ++ "]\n" ++ s.content))
    match env.complete
        [("system", systemPrompt),
         ("user", "Context:\n" ++ combinedContext ++ "\n\nQuestion: " ++ query)] with
    | ModelOutcome.thrown => (Except.error "Failed to generate AI response", true)
    | ModelOutcome.ok content =>
      let answer := match content with
        | some a => if a = "" then "No answer could be generated." else a
        | none => "No answer could be generated."
      (Except.ok (answer, sources), true)

/-! ## Request Handler (chat route, lines 27-241) -/

/-- Environment of one chat request: whether GROQ_API_KEY is set, the
scraping environment and the model oracle. -/
structure ChatEnv where
  hasApiKey : Bool
  scrape : ScrapeEnv
  model : ModelEnv

/-- The destructured request body `const { query, urls } = await req.json()`
(`none` models an absent field). -/
structure ChatBody where
  query : Option JsVal
  urls : Option JsVal

/-- A chat response: `ok` is the 200 payload `{ answer, sources }`, `err`
an error payload `{ error }` with its status code. -/
inductive ChatResp where
  | ok : String → List Source → ChatResp
  | err : Nat → String → ChatResp
deriving DecidableEq

/-- Line 44: `if (!query || !urls || !Array.isArray(urls))`. -/
def chatValidationFails (body : ChatBody) : Bool :=
  !(jsTruthyOpt body.query) || !(jsTruthyOpt body.urls) ||
    !(jsIsArrayOpt body.urls)

/-- Lines 27-241, the chat `POST` handler, paired with a flag recording
whether the model was invoked: configuration check (lines 30-38),
validation (lines 44-49), scraping (line 219), the zero-source 404
(lines 221-226), and the answer generation whose re-thrown failure is
converted to a 500 by the outer catch (lines 231-240). The body is given
already parsed; a `req.json()` parse failure is outside the model. -/
def chatHandler (env : ChatEnv) (body : ChatBody) : ChatResp × Bool :=
  if env.hasApiKey = false then
    (ChatResp.err 500 "Server configuration error: GROQ_API_KEY not set", false)
  else if chatValidationFails body then
    (ChatResp.err 400 "Invalid request. Provide a query and URLs.", false)
  else
    let sources := scrapeWebsites env.scrape (jsArrElems body.urls)
    if sources.length = 0 then
      (ChatResp.err 404 "Could not scrape any content from the provided URLs. Please check the URLs and try again.", false)
    else
      match generateAnswer env.model (jsToStringOpt body.query) sources with
      | (Except.ok (answer, srcs), called) => (ChatResp.ok answer srcs, called)
      | (Except.error msg, called) => (ChatResp.err 500 msg, called)

/-! ## Shared data types (types file) and their JSON encoding -/

/-- `Message.role`, either "user" or "ai". -/
inductive Role where
  | user : Role
  | ai : Role
deriving DecidableEq

/-- A chat message; `sources` is an optional field. -/
structure Message where
  role : Role
  content : String
  sources : Option (List Source)
deriving DecidableEq

/-- A conversation: id, ordered messages, comma-separated urls string. -/
structure Conversation where
  id : String
  messages : List Message
  urls : String
deriving DecidableEq

/-- JSON view of a role. -/
def encodeRole : Role → JsVal
  | Role.user => JsVal.str "user"
  | Role.ai => JsVal.str "ai"

/-- Inverse of `encodeRole`. -/
def decodeRole : JsVal → Option Role
  | JsVal.str "user" => some Role.user
  | JsVal.str "ai" => some Role.ai
  | _ => none

/-- JSON view of a source; the optional title field is omitted when
undefined, as JSON.stringify does. -/
def encodeSource (s : Source) : JsVal :=
  JsVal.obj ([("url", JsVal.str s.url), ("content", JsVal.str s.content)] ++
    (match s.title with
     | some t => [("title", JsVal.str t)]
     | none => []))

/-- Field access on a JSON object. -/
def jsField (v : JsVal) (k : String) : Option JsVal :=
  match v with
  | JsVal.obj fields => fields.lookup k
  | _ => none

/-- The string carried by a JSON value, if it is one. -/
def asStr : JsVal → Option String
  | JsVal.str s => some s
  | _ => none

/-- Inverse of `encodeSource`. -/
def decodeSource (v : JsVal) : Option Source := do
  let url ← (jsField v "url").bind asStr
  let content ← (jsField v "content").bind asStr
  let title ← match jsField v "title" with
    | none => pure none
    | some tv => (asStr tv).map some
  pure { url := url, content := content, title := title }

/-- JSON view of a message; the optional sources field is omitted when
undefined. -/
def encodeMessage (m : Message) : JsVal :=
  JsVal.obj ([("role", encodeRole m.role), ("content", JsVal.str m.content)] ++
    (match m.sources with
     | some ss => [("sources", JsVal.arr (ss.map encodeSource))]
     | none => []))

/-- Element-wise decoding of a source array. -/
def decodeSources : List JsVal → Option (List Source)
  | [] => some []
  | v :: vs => do
    let s ← decodeSource v
    let rest ← decodeSources vs
    pure (s :: rest)

/-- Inverse of `encodeMessage`. -/
def decodeMessage (v : JsVal) : Option Message := do
  let role ← (jsField v "role").bind decodeRole
  let content ← (jsField v "content").bind asStr
  let sources ← match jsField v "sources" with
    | none => pure none
    | some (JsVal.arr xs) => (decodeSources xs).map some
    | some _ => none
  pure { role := role, content := content, sources := sources }

/-- Element-wise decoding of a message array. -/
def decodeMessages : List JsVal → Option (List Message)
  | [] => some []
  | v :: vs => do
    let m ← decodeMessage v
    let rest ← decodeMessages vs
    pure (m :: rest)

/-- JSON view of a conversation, i.e. the value that
`JSON.stringify(conversation)` serializes and `JSON.parse` recovers. The
external JSON codec is modelled at the value level (stringify and parse
are mutually inverse on JSON values). -/
def toJsonConv (c : Conversation) : JsVal :=
  JsVal.obj
    [("id", JsVal.str c.id),
     ("messages", JsVal.arr (c.messages.map encodeMessage)),
     ("urls", JsVal.str c.urls)]

/-- Inverse of `toJsonConv`: reads a conversation back off its JSON view. -/
def fromJsonConv (v : JsVal) : Option Conversation := do
  let id ← (jsField v "id").bind asStr
  let msgs ← match jsField v "messages" with
    | some (JsVal.arr xs) => decodeMessages xs
    | _ => none
  let urls ← (jsField v "urls").bind asStr
  pure { id := id, messages := msgs, urls := urls }

/-! ## Share Handler (share route) -/

/-- The external Redis store: a key maps to a stored JSON value together
with its absolute expiry time (in seconds). -/
structure RedisState where
  entries : String → Option (JsVal × Int)

/-- `redis.set(key, value, { ex })`: store with expiry `now + ex`. -/
def redisSet (st : RedisState) (k : String) (v : JsVal) (now ex : Int) :
    RedisState :=
  { entries := fun key =>
      if key = k then some (v, now + ex) else st.entries key }

/-- `redis.get(key)` at time `now`: a key is visible only strictly before
its expiry time. -/
def redisGet (st : RedisState) (now : Int) (k : String) : Option JsVal :=
  match st.entries k with
  | some (v, expireAt) => if now < expireAt then some v else none
  | none => none

/-- Response of the share `POST` handler: `ok id` is the 200 payload
`{ success: true, id }`. -/
inductive SharePostResp where
  | ok : String → SharePostResp
  | err : Nat → String → SharePostResp
deriving DecidableEq

/-- Share route lines 254-288, the `POST` handler at time `now`: validate
the conversation payload is present (`!data.conversation`; an object is
always truthy, so the body is modelled as an optional conversation), then
store its JSON serialization under `conversation:` ++ id with a 7-day
expiry, and return the id. -/
def sharePost (st : RedisState) (now : Int) (body : Option Conversation) :
    SharePostResp × RedisState :=
  match body with
  | none => (SharePostResp.err 400 "No conversation data provided", st)
  | some c =>
    (SharePostResp.ok c.id,
     redisSet st ("conversation:" ++ c.id) (toJsonConv c) now (60 * 60 * 24 * 7))

/-- Response of the share `GET` handler: `found v` is the 200 payload
`{ conversation: v }` with `v` the parsed stored value. -/
inductive ShareGetResp where
  | found : JsVal → ShareGetResp
  | err : Nat → String → ShareGetResp

/-- Share route lines 291-325, the `GET` handler at time `now`:
`searchParams.get` yields `none` for a missing parameter, and the check
`if (!id)` also rejects the empty string; a missing or expired key is a
404; otherwise the stored value is parsed and returned. -/
def shareGet (st : RedisState) (now : Int) (idParam : Option String) :
    ShareGetResp :=
  match idParam with
  | none => ShareGetResp.err 400 "Conversation ID is required"
  | some id =>
    if id = "" then ShareGetResp.err 400 "Conversation ID is required"
    else
      match redisGet st now ("conversation:" ++ id) with
      | none => ShareGetResp.err 404 "Conversation not found"
      | some v => ShareGetResp.found v

/-! ## Rate-limiting middleware (middleware file) -/

/-- Result of `ratelimit.limit(identifier)`: the decision plus the header
numbers (`reset` is an epoch timestamp in milliseconds). -/
structure RateLimitResult where
  success : Bool
  limit : Nat
  reset : Int
  remaining : Nat
deriving DecidableEq

/-- The external rate-limit service either throws or returns a result. -/
inductive RateLimitOutcome where
  | thrown : RateLimitOutcome
  | ok : RateLimitResult → RateLimitOutcome

/-- Environment of one middleware invocation: the rate-limit oracle over
identifiers, and `Date.now()` at the moment the headers are set. -/
structure MwEnv where
  ratelimit : String → RateLimitOutcome
  now : Int

/-- The header-derived request data the middleware reads (`none` models a
missing header). -/
structure MwRequest where
  xForwardedFor : Option String
  xRealIP : Option String
  pathname : String

/-- A middleware response: pass-through (`NextResponse.next()`) or a JSON
response, each carrying its headers in insertion order. -/
inductive MwResponse where
  | next : List (String × String) → MwResponse
  | json : Nat → String → List (String × String) → MwResponse
deriving DecidableEq

/-- `response.headers.set(k, v)` (each header is set at most once here, so
appending is faithful). -/
def setHeader (resp : MwResponse) (k v : String) : MwResponse :=
  match resp with
  | MwResponse.next hs => MwResponse.next (hs ++ [(k, v)])
  | MwResponse.json st b hs => MwResponse.json st b (hs ++ [(k, v)])

/-- Middleware lines 25-37, `getIP`: first entry of `x-forwarded-for`
(trimmed), else `x-real-ip`, else loopback. The truthiness check `if
(header)` also rejects an empty header value. -/
def getIP (req : MwRequest) : String :=
  match req.xForwardedFor with
  | some fwd =>
    if fwd != "" then jsTrimStr (((fwd.splitOn ",").headD ""))
    else
      match req.xRealIP with
      | some real => if real != "" then real else "127.0.0.1"
      | none => "127.0.0.1"
  | none =>
    match req.xRealIP with
    | some real => if real != "" then real else "127.0.0.1"
    | none => "127.0.0.1"

/-- `Math.ceil (a / b)` for integers with `b > 0`. -/
def jsMathCeilDiv (a b : Int) : Int :=
  -((-a).ediv b)

/-- Middleware lines 40-81: rate limit only `/api/chat`; attach the three
X-RateLimit headers to the decision response, plus `Retry-After` on
rejection; any throw from the limiter is caught and the request is
forwarded (fail-open). -/
def middleware (env : MwEnv) (req : MwRequest) : MwResponse :=
  let ip := getIP req
  if req.pathname = "/api/chat" then
    let identifier := ip ++ ":" ++ req.pathname
    match env.ratelimit identifier with
    | RateLimitOutcome.thrown => MwResponse.next []
    | RateLimitOutcome.ok r =>
      let response :=
        if r.success then MwResponse.next []
        else MwResponse.json 429 "Too many requests" []
      let response := setHeader response "X-RateLimit-Limit" (toString r.limit)
      let response := setHeader response "X-RateLimit-Remaining" (toString r.remaining)
      let response := setHeader response "X-RateLimit-Reset" (toString r.reset)
      let response :=
        if r.success = false then
          setHeader response "Retry-After"
            (toString (jsMathCeilDiv (r.reset - env.now) 1000))
        else response
      response
  else MwResponse.next []

/-! ## Concrete environments and inputs used by witnesses and
counterexamples -/

/-- A document with no selector match, body text "hello", title "T". -/
def demoDoc : HtmlDoc :=
  { selText := fun _ => none, bodyText := "hello", titleText := "T" }

/-- A scraping environment where every navigation succeeds with an ok
response on the first attempt. -/
def demoScrapeEnv : ScrapeEnv :=
  { goto := fun _ _ => GotoResult.success (some true)
    pageMarkup := fun _ => "<html><body>hello</body></html>"
    parse := fun _ => demoDoc }

/-- The source `demoScrapeEnv` produces for any valid URL. -/
def demoSource : Source :=
  { url := "https://a", content := "hello", title := some "T" }

/-- A scraping environment where every navigation attempt throws. -/
def demoFailEnv : ScrapeEnv :=
  { goto := fun _ _ => GotoResult.thrown
    pageMarkup := fun _ => ""
    parse := fun _ => demoDoc }

/-- A document whose title is whitespace only (trims to empty). -/
def demoDocNoTitle : HtmlDoc :=
  { selText := fun _ => none, bodyText := "hello", titleText := "  " }

/-- A scraping environment serving `demoDocNoTitle`. -/
def demoScrapeEnvNoTitle : ScrapeEnv :=
  { goto := fun _ _ => GotoResult.success (some true)
    pageMarkup := fun _ => "<html><body>hello</body></html>"
    parse := fun _ => demoDocNoTitle }

/-- The source `demoScrapeEnvNoTitle` produces for `https://a`: the URL
stands in for the empty title. -/
def demoSourceNoTitle : Source :=
  { url := "https://a", content := "hello", title := some "https://a" }

/-- A model oracle that always answers "ok". -/
def demoModelEnv : ModelEnv :=
  { complete := fun _ => ModelOutcome.ok (some "ok") }

/-- A chat environment with the API key set. -/
def demoChatEnv : ChatEnv :=
  { hasApiKey := true, scrape := demoScrapeEnv, model := demoModelEnv }

/-- An empty Redis store. -/
def emptyRedis : RedisState :=
  { entries := fun _ => none }

/-- A small two-message conversation with a non-empty id. -/
def demoConv : Conversation :=
  { id := "abc123"
    messages :=
      [{ role := Role.user, content := "hello", sources := none },
       { role := Role.ai, content := "answer",
         sources := some [{ url := "https://a", content := "text",
                            title := some "T" }] }]
    urls := "https://a" }

/-- A conversation whose id is the empty string. -/
def demoConvEmptyId : Conversation :=
  { id := "", messages := [{ role := Role.user, content := "hi", sources := none }]
    urls := "" }

/-- A middleware environment whose limiter always throws. -/
def demoMwEnvThrow : MwEnv :=
  { ratelimit := fun _ => RateLimitOutcome.thrown, now := 0 }

/-- A rejection result: limit 5, reset at 10000 ms, none remaining. -/
def demoRL : RateLimitResult :=
  { success := false, limit := 5, reset := 10000, remaining := 0 }

/-- A middleware environment whose limiter rejects with `demoRL`, observed
1500 ms before the reset. -/
def demoMwEnvReject : MwEnv :=
  { ratelimit := fun _ => RateLimitOutcome.ok demoRL, now := 8500 }

/-- A request to the chat endpoint with no IP headers. -/
def demoReq : MwRequest :=
  { xForwardedFor := none, xRealIP := none, pathname := "/api/chat" }

/-! ## Helper lemmas -/

/-- The cleaning pipeline caps its output at 8000 characters. -/
theorem cleanContent_length_le (s : String) : (cleanContent s).length ≤ 8000 := by
  show (List.take 8000 _).length ≤ 8000
  rw [List.length_take]
  exact min_le_left _ _

/-- Everything `processUrl` guarantees about a produced source: its url is
the input url, its content is the cleaned extraction of the fetched page
and is non-empty, and its title is the trimmed document title, or the url
when that is empty. -/
theorem processUrl_spec (env : ScrapeEnv) (url : String) (s : Source)
    (h : processUrl env url = some s) :
    s.url = url ∧
    s.content = cleanContent (extractMainText (env.parse (env.pageMarkup url))) ∧
    s.content ≠ "" ∧
    s.title = some (if jsTrimStr ((env.parse (env.pageMarkup url)).titleText) = ""
      then url else jsTrimStr ((env.parse (env.pageMarkup url)).titleText)) := by
  unfold processUrl at h
  split at h
  · exact absurd h (by simp)
  · exact absurd h (by simp)
  · split at h
    · exact absurd h (by simp)
    · split at h
      · exact absurd h (by simp)
      · rename_i hc
        have hs := Option.some.inj h
        refine ⟨?_, ?_, ?_, ?_⟩
        · rw [← hs]
        · rw [← hs]
        · rw [← hs]; exact hc
        · rw [← hs]

/-- Every member of the scraping result comes from a scheme-valid URL that
`processUrl` accepted. -/
theorem mem_scrapeWebsites (env : ScrapeEnv) (urls : List JsVal) (s : Source)
    (h : s ∈ scrapeWebsites env urls) :
    ∃ url : String,
      (jsStartsWith url "http://" || jsStartsWith url "https://") = true ∧
      processUrl env url = some s := by
  induction urls with
  | nil => exact absurd h (by simp [scrapeWebsites])
  | cons v rest ih =>
    cases v with
    | str url =>
      by_cases hv : (jsStartsWith url "http://" || jsStartsWith url "https://") = true
      · rcases hp : processUrl env url with _ | s0
        · exact ih (by simpa [scrapeWebsites, hv, hp] using h)
        · have h2 : s = s0 ∨ s ∈ scrapeWebsites env rest := by
            simpa [scrapeWebsites, hv, hp] using h
          rcases h2 with he | hm
          · exact ⟨url, hv, he ▸ hp⟩
          · exact ih hm
      · exact ih (by simpa [scrapeWebsites, hv] using h)
    | null => exact absurd h (by simp [scrapeWebsites])
    | bool b => exact absurd h (by simp [scrapeWebsites])
    | num n => exact absurd h (by simp [scrapeWebsites])
    | arr xs => exact absurd h (by simp [scrapeWebsites])
    | obj fs => exact absurd h (by simp [scrapeWebsites])

/-- A URL whose `processUrl` fails contributes nothing: the loop moves on. -/
theorem scrapeWebsites_cons_none (env : ScrapeEnv) (url : String)
    (rest : List JsVal) (h : processUrl env url = none) :
    scrapeWebsites env (JsVal.str url :: rest) = scrapeWebsites env rest := by
  by_cases hv : (jsStartsWith url "http://" || jsStartsWith url "https://") = true
  · simp [scrapeWebsites, hv, h]
  · simp [scrapeWebsites, hv]

/-- Bounds on the retry loop, for at least one remaining retry: attempts
fall in `[a, a + r - 1]`, exactly one 2000 ms sleep separates consecutive
attempts, and every sleep is 2000 ms. -/
theorem gotoLoop_spec (env : ScrapeEnv) (url : String) :
    ∀ r a, 1 ≤ r →
      a ≤ (gotoLoop env url r a).attempts ∧
      (gotoLoop env url r a).attempts ≤ a + r - 1 ∧
      (gotoLoop env url r a).sleepsMs.length = (gotoLoop env url r a).attempts - a ∧
      ∀ d ∈ (gotoLoop env url r a).sleepsMs, d = 2000 := by
  intro r
  induction r with
  | zero => intro a h; omega
  | succ r ih =>
    intro a _
    rw [gotoLoop]
    split
    · dsimp only
      exact ⟨Nat.le_refl a, by omega, by simp, by simp⟩
    · by_cases hr : r = 0
      · subst hr; simp
      · have h1 : 1 ≤ r := Nat.one_le_iff_ne_zero.mpr hr
        obtain ⟨ha1, ha2, hl, hs⟩ := ih (a + 1) h1
        rw [if_neg hr]
        dsimp only
        refine ⟨by omega, by omega,
          by simp only [List.length_cons, hl]; omega, ?_⟩
        intro d hd
        rcases List.mem_cons.mp hd with h | h
        · exact h
        · exact hs d h

/-- When every navigation attempt throws, the loop makes all its attempts,
sleeps 2000 ms between consecutive ones, and re-throws. -/
theorem gotoLoop_all_thrown (env : ScrapeEnv) (url : String)
    (h : ∀ i, env.goto url i = GotoResult.thrown) :
    ∀ r a, 1 ≤ r →
      gotoLoop env url r a =
        { result := none, attempts := a + r - 1,
          sleepsMs := List.replicate (r - 1) 2000 } := by
  intro r
  induction r with
  | zero => intro a hr; omega
  | succ r ih =>
    intro a _
    rw [gotoLoop, h a]
    by_cases hr : r = 0
    · subst hr; simp
    · have h1 : 1 ≤ r := Nat.one_le_iff_ne_zero.mpr hr
      rw [ih (a + 1) h1]
      simp only [if_neg hr]
      have he : a + 1 + r - 1 = a + (r + 1) - 1 := by omega
      have hrep : List.replicate (r + 1 - 1) 2000 =
          2000 :: List.replicate (r - 1) 2000 := by
        have : r + 1 - 1 = (r - 1) + 1 := by omega
        rw [this, List.replicate_succ]
      rw [hrep]
      simp [he]

/-- If every entry of the url list is a string with an invalid scheme, the
Source Collector returns the empty list. -/
theorem scrapeWebsites_all_invalid (env : ScrapeEnv) :
    ∀ xs : List JsVal,
      (∀ v ∈ xs, ∃ u : String, v = JsVal.str u ∧
        jsStartsWith u "http://" = false ∧ jsStartsWith u "https://" = false) →
      scrapeWebsites env xs = [] := by
  intro xs
  induction xs with
  | nil => intro _; rfl
  | cons v rest ih =>
    intro hinv
    obtain ⟨u, hvu, h1, h2⟩ := hinv v (List.mem_cons_self v rest)
    subst hvu
    have hrest := ih (fun w hw => hinv w (List.mem_cons_of_mem _ hw))
    simp [scrapeWebsites, h1, h2, hrest]

/-- Validation succeeds exactly when the query is truthy and the urls field
holds an array (an array is always truthy, even when empty). -/
theorem chatValidationFails_iff (body : ChatBody) :
    chatValidationFails body = false ↔
      (jsTruthyOpt body.query = true ∧ ∃ xs, body.urls = some (JsVal.arr xs)) := by
  obtain ⟨q, u⟩ := body
  constructor
  · intro h
    simp only [chatValidationFails, Bool.or_eq_false_iff,
      Bool.not_eq_false'] at h
    obtain ⟨⟨h1, h2⟩, h3⟩ := h
    refine ⟨h1, ?_⟩
    cases u with
    | none => exact absurd h3 (by simp [jsIsArrayOpt])
    | some v =>
      cases v with
      | arr xs => exact ⟨xs, rfl⟩
      | null => exact absurd h3 (by simp [jsIsArrayOpt])
      | bool b => exact absurd h3 (by simp [jsIsArrayOpt])
      | num n => exact absurd h3 (by simp [jsIsArrayOpt])
      | str s2 => exact absurd h3 (by simp [jsIsArrayOpt])
      | obj fs => exact absurd h3 (by simp [jsIsArrayOpt])
  · rintro ⟨h1, xs, rfl⟩
    have h1q : jsTruthyOpt q = true := h1
    simp [chatValidationFails, h1q, jsIsArrayOpt]
    rfl

/-- With the API key set and a failing validation, the handler returns the
400 response without calling the model. -/
theorem chatHandler_400_of_invalid (env : ChatEnv) (body : ChatBody)
    (hkey : env.hasApiKey = true) (hval : chatValidationFails body = true) :
    chatHandler env body =
      (ChatResp.err 400 "Invalid request. Provide a query and URLs.", false) := by
  unfold chatHandler
  rw [hkey, hval]
  simp

/-- With the API key set and a passing validation, the handler never
returns a 400 response. -/
theorem chatHandler_not_400_of_valid (env : ChatEnv) (body : ChatBody)
    (hkey : env.hasApiKey = true) (hval : chatValidationFails body = false) :
    ∀ m, (chatHandler env body).1 ≠ ChatResp.err 400 m := by
  intro m
  unfold chatHandler
  rw [hkey, hval]
  simp only [Bool.true_eq_false, if_false, Bool.false_eq_true]
  by_cases hlen :
      (scrapeWebsites env.scrape (jsArrElems body.urls)).length = 0
  · simp [hlen]
  · simp only [if_neg hlen]
    split
    · rename_i a srcs called heq
      simp
    · rename_i msg called heq
      have : msg = "Failed to generate AI response" ∨ True := Or.inr trivial
      simp

/-- Decoding inverts the JSON encoding of a source. -/
theorem decodeSource_encodeSource (s : Source) :
    decodeSource (encodeSource s) = some s := by
  obtain ⟨u, c, t⟩ := s
  cases t <;> rfl

/-- Decoding inverts the elementwise JSON encoding of a source list. -/
theorem decodeSources_map (ss : List Source) :
    decodeSources (ss.map encodeSource) = some ss := by
  induction ss with
  | nil => rfl
  | cons s ss ih =>
    simp [decodeSources, decodeSource_encodeSource, ih]

/-- Decoding inverts the JSON encoding of a message. -/
theorem decodeMessage_encodeMessage (m : Message) :
    decodeMessage (encodeMessage m) = some m := by
  obtain ⟨r, c, srcs⟩ := m
  cases srcs with
  | none => cases r <;> rfl
  | some ss =>
    cases r <;>
      simp [encodeMessage, decodeMessage, jsField, List.lookup, decodeRole,
        encodeRole, asStr, decodeSources_map]

/-- Decoding inverts the elementwise JSON encoding of a message list. -/
theorem decodeMessages_map (ms : List Message) :
    decodeMessages (ms.map encodeMessage) = some ms := by
  induction ms with
  | nil => rfl
  | cons m ms ih =>
    simp [decodeMessages, decodeMessage_encodeMessage, ih]

/-- Decoding inverts the JSON encoding of a conversation: serialization
preserves the structure (roles, contents, sources) exactly. -/
theorem fromJsonConv_toJsonConv (c : Conversation) :
    fromJsonConv (toJsonConv c) = some c := by
  obtain ⟨i, ms, us⟩ := c
  simp [toJsonConv, fromJsonConv, jsField, List.lookup, asStr,
    decodeMessages_map]

/-! ## Claims -/

/-- Claim C5: for the empty list of sources and any query, the Answer
Generator returns the fixed fallback answer stating it could not extract
content, paired with an empty sources list, and does not invoke the
model. -/
theorem generateAnswer_empty_sources_fallback (env : ModelEnv) (query : String) :
    generateAnswer env query [] =
      (Except.ok
        ("I couldn't extract any content from the provided URLs. Please check the URLs and try again.",
         ([] : List Source)),
       false) := rfl

/-- Claim C6: for every raw markup input (any parsed document the external
parser may produce), the HTML Extractor output has length at most 8000
characters, and hence so does the content field of every Source record the
Source Collector returns. -/
theorem extractor_output_le_8000 :
    (∀ doc : HtmlDoc, (cleanContent (extractMainText doc)).length ≤ 8000) ∧
    (∀ (env : ScrapeEnv) (urls : List JsVal) (s : Source),
      s ∈ scrapeWebsites env urls → s.content.length ≤ 8000) := by
  constructor
  · intro doc; exact cleanContent_length_le _
  · intro env urls s hs
    obtain ⟨url, -, hp⟩ := mem_scrapeWebsites env urls s hs
    obtain ⟨-, hc, -, -⟩ := processUrl_spec env url s hp
    rw [hc]; exact cleanContent_length_le _

/-- Witness for C6 at a concrete document and a concrete scraped source. -/
theorem extractor_output_le_8000_witness :
    (cleanContent (extractMainText demoDoc)).length ≤ 8000 ∧
    demoSource.content.length ≤ 8000 :=
  ⟨extractor_output_le_8000.1 demoDoc,
   extractor_output_le_8000.2 demoScrapeEnv [JsVal.str "https://a"] demoSource
     (by decide)⟩

/-- Claim C8: for every request to the chat endpoint, if the rate-limiting
service call throws, the middleware forwards the request unrestricted
(fail-open) instead of rejecting it. -/
theorem middleware_fail_open (env : MwEnv) (req : MwRequest)
    (hpath : req.pathname = "/api/chat")
    (hthrow : env.ratelimit (getIP req ++ ":" ++ req.pathname) =
      RateLimitOutcome.thrown) :
    middleware env req = MwResponse.next [] := by
  have h2 : env.ratelimit (getIP req ++ ":" ++ "/api/chat") =
      RateLimitOutcome.thrown := by rw [← hpath]; exact hthrow
  simp [middleware, hpath, h2]

/-- Witness for C8: a throwing limiter on a concrete chat request. -/
theorem middleware_fail_open_witness :
    middleware demoMwEnvThrow demoReq = MwResponse.next [] :=
  middleware_fail_open demoMwEnvThrow demoReq rfl rfl

/-- Claim C9: for every chat request the limiter rejects, the middleware
returns 429 carrying the three X-RateLimit headers and a Retry-After header
equal to the ceiling, in seconds, of the difference between the reset
timestamp and the current time. -/
theorem middleware_429_headers (env : MwEnv) (req : MwRequest)
    (r : RateLimitResult)
    (hpath : req.pathname = "/api/chat")
    (hout : env.ratelimit (getIP req ++ ":" ++ req.pathname) =
      RateLimitOutcome.ok r)
    (hfail : r.success = false) :
    middleware env req =
      MwResponse.json 429 "Too many requests"
        [("X-RateLimit-Limit", toString r.limit),
         ("X-RateLimit-Remaining", toString r.remaining),
         ("X-RateLimit-Reset", toString r.reset),
         ("Retry-After", toString (jsMathCeilDiv (r.reset - env.now) 1000))] := by
  have h2 : env.ratelimit (getIP req ++ ":" ++ "/api/chat") =
      RateLimitOutcome.ok r := by rw [← hpath]; exact hout
  simp [middleware, hpath, h2, hfail, setHeader]

/-- Witness for C9: a concrete rejection 1500 ms before reset, giving
Retry-After of 2 seconds. -/
theorem middleware_429_headers_witness :
    middleware demoMwEnvReject demoReq =
      MwResponse.json 429 "Too many requests"
        [("X-RateLimit-Limit", "5"), ("X-RateLimit-Remaining", "0"),
         ("X-RateLimit-Reset", "10000"), ("Retry-After", "2")] := by
  rw [middleware_429_headers demoMwEnvReject demoReq demoRL rfl rfl rfl]
  rfl

/-- Claim C7: for every URL the Page Fetcher processes, navigation is
attempted at most 3 times with a 2-second (2000 ms) pause between
consecutive attempts; when every attempt throws, the loop makes exactly 3
attempts with 2 pauses and re-throws, and the URL is dropped from the
scraping results rather than propagated; a non-success HTTP status likewise
counts as a failure and drops the URL. -/
theorem fetch_retry_bounds_and_drop (env : ScrapeEnv) (url : String) :
    (fetchWithRetries env url).attempts ≤ 3 ∧
    (fetchWithRetries env url).sleepsMs.length =
      (fetchWithRetries env url).attempts - 1 ∧
    (∀ d ∈ (fetchWithRetries env url).sleepsMs, d = 2000) ∧
    ((∀ i, env.goto url i = GotoResult.thrown) →
      fetchWithRetries env url =
        { result := none, attempts := 3, sleepsMs := [2000, 2000] } ∧
      ∀ rest, scrapeWebsites env (JsVal.str url :: rest) =
        scrapeWebsites env rest) ∧
    (env.goto url 1 = GotoResult.success (some false) →
      ∀ rest, scrapeWebsites env (JsVal.str url :: rest) =
        scrapeWebsites env rest) := by
  obtain ⟨h1, h2, h3, h4⟩ := gotoLoop_spec env url 3 1 (by omega)
  refine ⟨h2, h3, h4, ?_, ?_⟩
  · intro hall
    have hfetch : fetchWithRetries env url =
        { result := none, attempts := 3, sleepsMs := [2000, 2000] } := by
      have h := gotoLoop_all_thrown env url hall 3 1 (by omega)
      simpa [fetchWithRetries, List.replicate] using h
    refine ⟨hfetch, fun rest => ?_⟩
    apply scrapeWebsites_cons_none
    simp [processUrl, hfetch]
  · intro hok rest
    apply scrapeWebsites_cons_none
    have hres : (fetchWithRetries env url).result = some (some false) := by
      unfold fetchWithRetries
      rw [show (3 : Nat) = 2 + 1 from rfl, gotoLoop, hok]
    simp [processUrl, hres]

/-- Witness for C7: an environment where every navigation attempt throws
makes exactly 3 attempts with two 2000 ms pauses and drops the URL. -/
theorem fetch_retry_bounds_and_drop_witness :
    (fetchWithRetries demoFailEnv "https://x").attempts ≤ 3 ∧
    fetchWithRetries demoFailEnv "https://x" =
      { result := none, attempts := 3, sleepsMs := [2000, 2000] } ∧
    scrapeWebsites demoFailEnv [JsVal.str "https://x"] = [] := by
  have h := fetch_retry_bounds_and_drop demoFailEnv "https://x"
  have h4 := h.2.2.2.1 (fun i => rfl)
  exact ⟨h.1, h4.1, (h4.2 []).trans rfl⟩

/-- Claim C3 (counterexample): a URL that appears twice in the input list
contributes two Source records, so "a given URL contributes at most one
Source" fails on duplicated inputs. -/
theorem scrape_duplicate_url_cex :
    ((scrapeWebsitesS demoScrapeEnv ["https://a", "https://a"]).countP
      (fun s => s.url == "https://a")) = 2 := by decide

/-- Claim C3 (amended): each occurrence of a URL in the input list
contributes at most one Source record — for every URL value, the number of
returned Sources carrying it is at most its number of occurrences in the
input (duplicates are scraped again, not deduplicated). -/
theorem scrape_url_count_le_occurrences (env : ScrapeEnv)
    (urls : List String) (u : String) :
    (scrapeWebsitesS env urls).countP (fun s => s.url == u) ≤
      urls.count u := by
  induction urls with
  | nil => simp [scrapeWebsitesS, scrapeWebsites]
  | cons url rest ih =>
    show (scrapeWebsites env (JsVal.str url :: rest.map JsVal.str)).countP
        (fun s => s.url == u) ≤ (url :: rest).count u
    by_cases hv : (jsStartsWith url "http://" || jsStartsWith url "https://") = true
    · rcases hp : processUrl env url with _ | s0
      · rw [scrapeWebsites_cons_none env url _ hp, List.count_cons]
        have := ih
        simp only [scrapeWebsitesS] at this
        split <;> omega
      · have hstep : scrapeWebsites env (JsVal.str url :: rest.map JsVal.str) =
            s0 :: scrapeWebsites env (rest.map JsVal.str) := by
          simp [scrapeWebsites, hv, hp]
        rw [hstep, List.countP_cons, List.count_cons]
        have hu : s0.url = url := (processUrl_spec env url s0 hp).1
        rw [hu]
        have := ih
        by_cases he : url = u
        · subst he
          simp only [beq_self_eq_true, if_true]
          simp only [scrapeWebsitesS] at this
          omega
        · have hb : (url == u) = false := by
            simp [he]
          simp only [hb, if_false]
          simp only [scrapeWebsitesS] at this
          omega
    · have hstep : scrapeWebsites env (JsVal.str url :: rest.map JsVal.str) =
          scrapeWebsites env (rest.map JsVal.str) := by
        simp [scrapeWebsites, hv]
      rw [hstep, List.count_cons]
      have := ih
      simp only [scrapeWebsitesS] at this
      split <;> omega

/-- Claim C10: every Source the Source Collector returns has non-empty
content and a non-empty title, and a page whose title trims to the empty
string gets its URL as the title. -/
theorem scrape_source_fields_nonempty (env : ScrapeEnv) (urls : List JsVal)
    (s : Source) (h : s ∈ scrapeWebsites env urls) :
    s.content ≠ "" ∧ (∃ t, s.title = some t ∧ t ≠ "") ∧
    (jsTrimStr ((env.parse (env.pageMarkup s.url)).titleText) = "" →
      s.title = some s.url) := by
  obtain ⟨url, hv, hp⟩ := mem_scrapeWebsites env urls s h
  obtain ⟨hu, hc, hne, ht⟩ := processUrl_spec env url s hp
  subst hu
  refine ⟨hne, ?_, fun hT => by rw [ht, if_pos hT]⟩
  by_cases hT : jsTrimStr ((env.parse (env.pageMarkup s.url)).titleText) = ""
  · refine ⟨s.url, by rw [ht, if_pos hT], fun he => ?_⟩
    rw [he] at hv
    exact absurd hv (by decide)
  · exact ⟨_, by rw [ht, if_neg hT], hT⟩

/-- Witness for C10: a concrete page with whitespace-only title yields a
source with non-empty content and the URL as its title. -/
theorem scrape_source_fields_nonempty_witness :
    demoSourceNoTitle.content ≠ "" ∧
    (∃ t, demoSourceNoTitle.title = some t ∧ t ≠ "") ∧
    demoSourceNoTitle.title = some demoSourceNoTitle.url := by
  have h := scrape_source_fields_nonempty demoScrapeEnvNoTitle
    [JsVal.str "https://a"] demoSourceNoTitle (by decide)
  exact ⟨h.1, h.2.1, h.2.2 (by decide)⟩

/-- Claim C1: with the API key set and a truthy query, a chat request whose
URL list yields zero scraped sources gets the 404 response with its
explanatory message and no model call; in particular a list all of whose
entries are strings that start with neither http:// nor https:// yields
zero sources. -/
theorem chat_zero_sources_404 (env : ChatEnv) (q : JsVal) (xs : List JsVal)
    (hkey : env.hasApiKey = true) (hq : jsTruthy q = true) :
    (scrapeWebsites env.scrape xs = [] →
      chatHandler env { query := some q, urls := some (JsVal.arr xs) } =
        (ChatResp.err 404
          "Could not scrape any content from the provided URLs. Please check the URLs and try again.",
         false)) ∧
    ((∀ v ∈ xs, ∃ u : String, v = JsVal.str u ∧
        jsStartsWith u "http://" = false ∧ jsStartsWith u "https://" = false) →
      scrapeWebsites env.scrape xs = []) := by
  refine ⟨?_, scrapeWebsites_all_invalid env.scrape xs⟩
  intro hscrape
  have hval : chatValidationFails
      { query := some q, urls := some (JsVal.arr xs) } = false := by
    have harr : jsTruthy (JsVal.arr xs) = true := rfl
    simp [chatValidationFails, jsTruthyOpt, jsIsArrayOpt, hq, harr]
  unfold chatHandler
  rw [hkey, hval]
  simp [jsArrElems, hscrape]

/-- Witness for C1: the concrete scenario from the spec, a single
invalid-scheme entry, yields the 404 with no model call. -/
theorem chat_zero_sources_404_witness :
    chatHandler demoChatEnv
      { query := some (JsVal.str "hi"),
        urls := some (JsVal.arr [JsVal.str "not-a-url"]) } =
      (ChatResp.err 404
        "Could not scrape any content from the provided URLs. Please check the URLs and try again.",
       false) := by
  have h := chat_zero_sources_404 demoChatEnv (JsVal.str "hi")
    [JsVal.str "not-a-url"] rfl rfl
  refine h.1 (h.2 ?_)
  intro v hv
  rw [List.mem_singleton] at hv
  subst hv
  exact ⟨"not-a-url", rfl, rfl, rfl⟩

/-- Claim C4 (counterexample): the body with query the empty string (a
query string) and urls the empty array (an array of URLs) is rejected with
400, because the empty string is falsy. -/
theorem chat_validation_empty_query_cex :
    (∃ s : String,
      ({ query := some (JsVal.str ""), urls := some (JsVal.arr []) } :
        ChatBody).query = some (JsVal.str s)) ∧
    (∃ xs : List JsVal,
      ({ query := some (JsVal.str ""), urls := some (JsVal.arr []) } :
        ChatBody).urls = some (JsVal.arr xs)) ∧
    chatHandler demoChatEnv
      { query := some (JsVal.str ""), urls := some (JsVal.arr []) } =
      (ChatResp.err 400 "Invalid request. Provide a query and URLs.", false) :=
  ⟨⟨"", rfl⟩, ⟨[], rfl⟩, rfl⟩

/-- Claim C4 (amended): with the API key set, the handler returns 400
exactly when the query value is missing or falsy (absent, null, false, 0,
or the empty string) or the urls value is missing or not an array; any
payload with a non-empty query string and an array value for urls passes
validation and proceeds past it (no 400 is possible). -/
theorem chat_validation_400_iff (env : ChatEnv) (body : ChatBody)
    (hkey : env.hasApiKey = true) :
    ((∃ m, (chatHandler env body).1 = ChatResp.err 400 m) ↔
      ¬(jsTruthyOpt body.query = true ∧
        ∃ xs, body.urls = some (JsVal.arr xs))) ∧
    (∀ s xs, body.query = some (JsVal.str s) → s ≠ "" →
      body.urls = some (JsVal.arr xs) →
      ∀ m, (chatHandler env body).1 ≠ ChatResp.err 400 m) := by
  constructor
  · constructor
    · rintro ⟨m, hm⟩ hBoth
      have hval : chatValidationFails body = false :=
        (chatValidationFails_iff body).mpr hBoth
      exact chatHandler_not_400_of_valid env body hkey hval m hm
    · intro hnot
      have hval : chatValidationFails body = true := by
        cases hb : chatValidationFails body with
        | true => rfl
        | false => exact absurd ((chatValidationFails_iff body).mp hb) hnot
      exact ⟨_, by rw [chatHandler_400_of_invalid env body hkey hval]⟩
  · intro s xs hq hs hu m
    have hval : chatValidationFails body = false :=
      (chatValidationFails_iff body).mpr
        ⟨by rw [hq]; simp [jsTruthyOpt, jsTruthy, hs], ⟨xs, hu⟩⟩
    exact chatHandler_not_400_of_valid env body hkey hval m

/-- Witness for C4 (amended) at a concrete body with a non-empty query
string and an array of URLs: no 400 is returned. -/
theorem chat_validation_400_iff_witness :
    (chatHandler demoChatEnv
      { query := some (JsVal.str "hi"), urls := some (JsVal.arr []) }).1 ≠
      ChatResp.err 400 "Invalid request. Provide a query and URLs." :=
  (chat_validation_400_iff demoChatEnv
    { query := some (JsVal.str "hi"), urls := some (JsVal.arr []) } rfl).2
    "hi" [] rfl (by decide) rfl _

/-- Claim C2 (counterexample): a conversation whose id is the empty string
is stored successfully, yet the GET with the same id is rejected with 400
(the falsy-id check), not answered with the conversation — even before any
expiry. -/
theorem share_roundtrip_empty_id_cex :
    (sharePost emptyRedis 0 (some demoConvEmptyId)).1 =
      SharePostResp.ok demoConvEmptyId.id ∧
    shareGet (sharePost emptyRedis 0 (some demoConvEmptyId)).2 0
        (some demoConvEmptyId.id) =
      ShareGetResp.err 400 "Conversation ID is required" :=
  ⟨rfl, rfl⟩

/-- Claim C2 (amended): every conversation with a non-empty id stored via
POST /api/share is returned by a GET with the same id strictly before the
7-day expiry, structurally equal to what was stored: the returned JSON
value decodes back to the original conversation, preserving every message
role, content and sources. -/
theorem share_roundtrip (st : RedisState) (tPost tGet : Int)
    (c : Conversation) (hid : c.id ≠ "")
    (hbefore : tGet < tPost + 60 * 60 * 24 * 7) :
    (sharePost st tPost (some c)).1 = SharePostResp.ok c.id ∧
    shareGet (sharePost st tPost (some c)).2 tGet (some c.id) =
      ShareGetResp.found (toJsonConv c) ∧
    fromJsonConv (toJsonConv c) = some c := by
  refine ⟨rfl, ?_, fromJsonConv_toJsonConv c⟩
  have hb : tGet < tPost + 604800 := by omega
  simp [shareGet, sharePost, redisGet, redisSet, hid, hb]

/-- Witness for C2 (amended): a concrete two-message conversation round
trips through the share store before its expiry. -/
theorem share_roundtrip_witness :
    (sharePost emptyRedis 0 (some demoConv)).1 = SharePostResp.ok "abc123" ∧
    shareGet (sharePost emptyRedis 0 (some demoConv)).2 1000
        (some "abc123") = ShareGetResp.found (toJsonConv demoConv) ∧
    fromJsonConv (toJsonConv demoConv) = some demoConv := by
  have h := share_roundtrip emptyRedis 0 1000 demoConv (by decide) (by decide)
  exact ⟨h.1, h.2.1, h.2.2⟩

end ResearchBot
